import Mathlib

/-!
Verification development for the laraAssistant backend.

This file gives a shallow embedding of the conversational-memory pipeline
(app/services/qdrant_service.py, app/services/embedding_service.py,
app/services/ai_service.py, app/routes/ai_chat.py), of the deferred-delivery
dispatcher (app/utils/background_jobs.py, app/routes/schedule.py) and of the
authentication dependency and HTTP-exception handler
(app/routes/ai_chat.py, app/core/error_handler.py), together with theorems
about the behaviour of those functions.

Modelling conventions:
- Python dicts used as Qdrant payloads become association lists whose lookup
  takes the first matching key; `dict.update(m)` therefore becomes `m ++ base`.
- Embedding vectors are opaque to every verified property, so their element
  type is `Int`; the cosine scoring performed by the Qdrant server is passed
  in as a function parameter, and the float score threshold becomes an `Int`
  parameter for the same reason.
- Calls that the Python client rejects (searching or upserting with a `None`
  vector) are modelled with `Except`; the route handler catches every
  exception and answers with a 500 envelope, which the model mirrors.
- `uuid.uuid4()` and `datetime.utcnow()` results are passed in as parameters.
-/

/-- Payload values stored in Qdrant points: strings and Python None. -/
inductive PValue where
  | str (s : String)
  | null
deriving DecidableEq, Repr

/-- A Qdrant payload: a Python dict from field names to values. -/
abbrev Payload := List (String × PValue)

/-- Dict lookup; the first binding of a key wins, matching the convention
that an overriding dict is prepended (`dict.update` semantics). -/
def pget (p : Payload) (k : String) : Option PValue :=
  match p.find? (fun kv => kv.fst == k) with
  | some kv => some kv.snd
  | none => none

/-- Embedding vectors; the numeric contents are irrelevant to every claim. -/
abbrev Vec := List Int

/-- A stored Qdrant point (id, vector, payload). -/
structure QPoint where
  id : String
  vector : Vec
  payload : Payload
deriving DecidableEq, Repr

/-- One result of `client.search`: id, similarity score and payload. -/
structure SearchHit where
  id : String
  score : Int
  payload : Payload
deriving DecidableEq, Repr

/-- One result of `client.scroll` as returned by get_conversation_context. -/
structure ScrollPoint where
  id : String
  payload : Payload
deriving DecidableEq, Repr

/-- A single FieldCondition with a MatchValue: payload key and the string it
must equal. -/
def condHolds (p : Payload) (c : String × String) : Bool :=
  pget p c.fst == some (PValue.str c.snd)

/-- A Qdrant Filter with conjunctive `must` conditions. -/
def filterHolds (p : Payload) (conds : List (String × String)) : Bool :=
  conds.all (condHolds p)

/-- Stable insertion used by the sort model: `a` is placed before the first
element `b` with `keep a b = true`. -/
def insertStable (keep : α → α → Bool) (a : α) : List α → List α
  | [] => [a]
  | b :: bs => if keep a b then a :: b :: bs else b :: insertStable keep a bs

/-- Stable sort placing `a` before `b` whenever `keep a b = true`; with
`keep a b := key b ≤ key a` this is Python `sorted(key=key, reverse=True)`. -/
def stableSortBy (keep : α → α → Bool) : List α → List α
  | [] => []
  | a :: as => insertStable keep a (stableSortBy keep as)

/-- Model of the Qdrant server search: keep the points satisfying the filter,
score them, keep scores at or above the threshold, rank by descending score
and truncate to `limit`. -/
def clientSearch (sim : Vec → Vec → Int) (coll : List QPoint) (q : Vec)
    (conds : List (String × String)) (lim : Nat) (threshold : Int) :
    List SearchHit :=
  let matched := coll.filter (fun pt => filterHolds pt.payload conds)
  let scored := matched.map (fun pt => SearchHit.mk pt.id (sim q pt.vector) pt.payload)
  let kept := scored.filter (fun h => threshold ≤ h.score)
  (stableSortBy (fun a b => decide (b.score ≤ a.score)) kept).take lim

/-- QdrantService.search_similar (qdrant_service.py lines 96-169): builds the
conjunctive filter — always the userId condition, plus conversationId and
sourceType conditions when those arguments are truthy — and runs the search.
A missing query vector is rejected by the client library, modelled as an
error that the caller's `except` block turns into a 500. -/
def search_similar (sim : Vec → Vec → Int) (coll : List QPoint)
    (query_embedding : Option Vec) (user_id : String) (lim : Nat)
    (score_threshold : Int) (conversation_id : Option String)
    (source_type : Option String) : Except String (List SearchHit) :=
  match query_embedding with
  | none => Except.error "query vector is required"
  | some q =>
    let must_conditions :=
      [("userId", user_id)]
        ++ (match conversation_id with
            | some c => if c = "" then [] else [("conversationId", c)]
            | none => [])
        ++ (match source_type with
            | some s => if s = "" then [] else [("sourceType", s)]
            | none => [])
    Except.ok (clientSearch sim coll q must_conditions lim score_threshold)

/-- QdrantService.store_embedding (qdrant_service.py lines 41-94): builds the
payload with the reserved camelCase fields, then `payload.update(metadata)`
lets caller metadata override any of them (modelled by prepending the
metadata). Upserting a missing vector is rejected by the client library. -/
def store_embedding (user_id text : String) (embedding : Option Vec)
    (conversation_id : Option String) (source_type : String)
    (metadata : Payload) (point_id : String) (now : String) :
    Except String QPoint :=
  match embedding with
  | none => Except.error "vector is required"
  | some v =>
    let base : Payload :=
      [("userId", PValue.str user_id),
       ("text", PValue.str text),
       ("conversationId",
         match conversation_id with
         | some c => PValue.str c
         | none => PValue.null),
       ("sourceType", PValue.str source_type),
       ("createdAt", PValue.str now)]
    Except.ok (QPoint.mk point_id v (metadata ++ base))

/-- Two points owned by different users but with identical vectors, used to
witness the isolation theorem on a concrete search. -/
def ownerAPoint : QPoint :=
  QPoint.mk "pA" [1, 2] [("userId", PValue.str "ownerA"), ("text", PValue.str "hello")]

def ownerBPoint : QPoint :=
  QPoint.mk "pB" [1, 2] [("userId", PValue.str "ownerB"), ("text", PValue.str "hello")]

def isolationColl : List QPoint := [ownerAPoint, ownerBPoint]

def constSim : Vec → Vec → Int := fun _ _ => 9

/-- Code-point comparison of strings as character lists, matching Python
string ordering used to sort by the createdAt ISO-8601 timestamp. -/
def charsLe : List Char → List Char → Bool
  | [], _ => true
  | _ :: _, [] => false
  | a :: as, b :: bs =>
    if a.toNat < b.toNat then true
    else if b.toNat < a.toNat then false
    else charsLe as bs

/-- The createdAt sort key: `x.payload.get("createdAt", "")`. -/
def createdAtKey (p : Payload) : String :=
  match pget p "createdAt" with
  | some (PValue.str s) => s
  | _ => ""

/-- Model of `client.scroll`: the points satisfying the filter, up to
`limit`, in collection order (the store guarantees filter correctness, not
ordering). -/
def clientScroll (coll : List QPoint) (conds : List (String × String))
    (lim : Nat) : List QPoint :=
  (coll.filter (fun pt => filterHolds pt.payload conds)).take lim

/-- QdrantService.get_conversation_context (qdrant_service.py lines
171-230): scroll the owner+conversation filter, then
`sorted(key=createdAt, reverse=True)` — newest first. -/
def get_conversation_context (coll : List QPoint)
    (user_id conversation_id : String) (lim : Nat) : List ScrollPoint :=
  let points := clientScroll coll
    [("userId", user_id), ("conversationId", conversation_id)] lim
  (stableSortBy
      (fun a b => charsLe (createdAtKey b.payload).data (createdAtKey a.payload).data)
      points).map (fun pt => ScrollPoint.mk pt.id pt.payload)

/-- Python `l[-5:]`: the last `n` elements of a list. -/
def lastN (n : Nat) (xs : List α) : List α :=
  xs.drop (xs.length - n)

/-- The text field rendered into a context line; every point written by
store_embedding carries a string "text" field, and the Python code indexes
`payload['text']` directly. -/
def payloadText (p : Payload) : String :=
  match pget p "text" with
  | some (PValue.str s) => s
  | _ => ""

/-- Context assembly, ai_chat.py lines 107-117, kept verbatim: the source
writes "\\n" inside ordinary Python string literals, so the separators are
the two characters backslash and n, not newlines; the loop over recent
turns takes `conversation_context[-5:]`. -/
def assembleContext (context_memories : List SearchHit)
    (conversation_context : List ScrollPoint) : String :=
  let t0 := ""
  let t1 :=
    if context_memories.isEmpty then t0
    else
      context_memories.foldl
        (fun acc m => acc ++ "- " ++ payloadText m.payload ++ "\\n")
        (t0 ++ "\\n\\nRelevant context from memory:\\n")
  if conversation_context.isEmpty then t1
  else
    (lastN 5 conversation_context).foldl
      (fun acc m => acc ++ "- " ++ payloadText m.payload ++ "\\n")
      (t1 ++ "\\n\\nRecent conversation:\\n")

/-- Token usage accounting returned with every completion. -/
structure TokenUsage where
  prompt_tokens : Nat
  completion_tokens : Nat
  total_tokens : Nat
deriving DecidableEq, Repr

/-- Result of AIService.chat_completion. -/
structure CompletionResult where
  text : String
  token_usage : TokenUsage
  model : String
deriving DecidableEq, Repr

/-- Python `str.strip()`: remove leading and trailing whitespace. -/
def pyStrip (s : String) : String :=
  String.mk ((((s.data.dropWhile (fun c => c.isWhitespace)).reverse.dropWhile
    (fun c => c.isWhitespace))).reverse)

/-- Helper counting whitespace-separated words; the flag says whether the
scan is inside a word. -/
def wordCountChars : List Char → Bool → Nat
  | [], _ => 0
  | c :: cs, inWord =>
    if c.isWhitespace then wordCountChars cs false
    else (if inWord then 0 else 1) + wordCountChars cs true

/-- Python `len(message.split())`: whitespace-separated word count. -/
def wordCount (s : String) : Nat :=
  wordCountChars s.data false

/-- AIService.chat_completion (ai_service.py lines 25-98). `has_client`
says whether OPENAI_API_KEY was configured; `provider` is the outcome of
the OpenAI API call (an error models a raised exception). Without a client
the mock echo is returned; a provider exception is caught and turned into
the fixed apology with token usage {0, 15, 15} and model "error" — the
function returns normally in every case. -/
def chat_completion (has_client : Bool)
    (provider : Except String CompletionResult) (message : String)
    (context : String) : CompletionResult :=
  if has_client then
    match provider with
    | Except.ok r => r
    | Except.error _ =>
      CompletionResult.mk
        "I'm sorry, I'm experiencing technical difficulties. Please try again later."
        (TokenUsage.mk 0 15 15) "error"
  else
    CompletionResult.mk
      ("Echo: " ++ message ++ " (AI service not configured - set OPENAI_API_KEY)")
      (TokenUsage.mk (wordCount message) 10 (wordCount message + 10)) "mock"

/-- EmbeddingService.get_embedding (embedding_service.py lines 11-24):
None for empty or whitespace-only text, otherwise the provider outcome on
the stripped text (None when the provider raised). -/
def get_embedding (provider : String → Option Vec) (text : String) :
    Option Vec :=
  if pyStrip text = "" then none else provider (pyStrip text)

/-- The chat request body (ChatTextRequest): `metadata` is the caller dict
(None becomes the empty dict) and `saveToMemory` defaults to true. -/
structure ChatRequest where
  message : String
  conversationId : Option String
  metadata : Payload
  saveToMemory : Bool
deriving DecidableEq, Repr

/-- Response data of a successful chat (ChatResponse). -/
structure ChatData where
  conversationId : String
  message : String
  responseText : String
  tokenUsage : TokenUsage
  memoryStored : Bool
deriving DecidableEq, Repr

/-- The send_response / send_error envelope as produced by the chat route. -/
structure ApiOut where
  statusCode : Nat
  message : String
  data : Option ChatData
deriving DecidableEq, Repr

/-- Python `request.conversationId or str(uuid.uuid4())`: a falsy (missing
or empty) id is replaced by the freshly minted one. -/
def resolveConversationId (supplied : Option String) (fresh : String) :
    String :=
  match supplied with
  | some c => if c = "" then fresh else c
  | none => fresh

/-- Everything the chat handler observes from outside one request: the
authenticated caller, the subscription check, the vector store contents,
the embedding and completion providers, and the generated ids and
timestamps. -/
structure ChatEnv where
  user_id : String
  subscriptionOk : Bool
  sim : Vec → Vec → Int
  threshold : Int
  collection : List QPoint
  provider : String → Option Vec
  has_client : Bool
  completion : Except String CompletionResult
  freshConvId : String
  pid1 : String
  pid2 : String
  now1 : String
  now2 : String

/-- chat_text (ai_chat.py lines 49-187). Returns the HTTP envelope and the
list of points stored into Qdrant, in write order. Mirrors the source: the
falsy-user check, the subscription check, conversation id resolution,
embedding of the message, similarity search only when saveToMemory is set,
the unconditional recent-context scroll, context assembly, completion,
then — only when saveToMemory is set — the two store_embedding writes
(the user message with `{"role": "user", **(request.metadata or {})}` and
the AI response with `{"role": "assistant"}`). Any raising step lands in
the handler's `except` block, a 500 envelope; points stored before the
raise stay stored. The MongoDB chat-log insert carries no claim content
and is modelled as succeeding. -/
def chat_text (env : ChatEnv) (req : ChatRequest) : ApiOut × List QPoint :=
  if env.user_id = "" then
    (ApiOut.mk 400 "Invalid user data" none, [])
  else if !env.subscriptionOk then
    (ApiOut.mk 403 "Subscription required for AI chat" none, [])
  else
    let conversation_id := resolveConversationId req.conversationId env.freshConvId
    let user_embedding := get_embedding env.provider req.message
    let searchRes : Except String (List SearchHit) :=
      if req.saveToMemory then
        search_similar env.sim env.collection user_embedding env.user_id 5
          env.threshold (some conversation_id) none
      else Except.ok []
    match searchRes with
    | Except.error _ => (ApiOut.mk 500 "Failed to process chat" none, [])
    | Except.ok context_memories =>
      let conversation_context :=
        get_conversation_context env.collection env.user_id conversation_id 10
      let context_text := assembleContext context_memories conversation_context
      let ai_response := chat_completion env.has_client env.completion req.message context_text
      if req.saveToMemory then
        match store_embedding env.user_id req.message user_embedding
            (some conversation_id) "user_message"
            (req.metadata ++ [("role", PValue.str "user")]) env.pid1 env.now1 with
        | Except.error _ => (ApiOut.mk 500 "Failed to process chat" none, [])
        | Except.ok p1 =>
          let ai_embedding := get_embedding env.provider ai_response.text
          match store_embedding env.user_id ai_response.text ai_embedding
              (some conversation_id) "ai_response"
              [("role", PValue.str "assistant")] env.pid2 env.now2 with
          | Except.error _ => (ApiOut.mk 500 "Failed to process chat" none, [p1])
          | Except.ok p2 =>
            (ApiOut.mk 200 "Chat completed successfully"
              (some (ChatData.mk conversation_id req.message ai_response.text
                ai_response.token_usage true)), [p1, p2])
      else
        (ApiOut.mk 200 "Chat completed successfully"
          (some (ChatData.mk conversation_id req.message ai_response.text
            ai_response.token_usage false)), [])

/-- A concrete chat environment: authenticated caller, active subscription,
empty vector store, an embedding provider that always answers, and no
configured OpenAI client (the mock completion path). -/
def mockEnv : ChatEnv :=
  ChatEnv.mk "caller-1" true (fun _ _ => 0) 0 [] (fun _ => some [1]) false
    (Except.error "unused") "conv-f" "pid-1" "pid-2" "t1" "t2"

/-- A stored conversation turn used to probe the recent-context path. -/
def turnPoint (i txt ts : String) : QPoint :=
  QPoint.mk i [1]
    [("userId", PValue.str "u1"), ("text", PValue.str txt),
     ("conversationId", PValue.str "c1"),
     ("sourceType", PValue.str "user_message"),
     ("createdAt", PValue.str ts)]

/-- Six turns of one conversation with strictly increasing timestamps. -/
def sixTurnColl : List QPoint :=
  [turnPoint "p1" "m1" "2024-01-01T00:00:01",
   turnPoint "p2" "m2" "2024-01-01T00:00:02",
   turnPoint "p3" "m3" "2024-01-01T00:00:03",
   turnPoint "p4" "m4" "2024-01-01T00:00:04",
   turnPoint "p5" "m5" "2024-01-01T00:00:05",
   turnPoint "p6" "m6" "2024-01-01T00:00:06"]

/-- Needle-at-the-front check over character lists. -/
def leadsWith : List Char → List Char → Bool
  | [], _ => true
  | _ :: _, [] => false
  | a :: as, b :: bs => a == b && leadsWith as bs

/-- Substring occurrence over character lists. -/
def containsSeq (needle : List Char) : List Char → Bool
  | [] => leadsWith needle []
  | c :: cs => leadsWith needle (c :: cs) || containsSeq needle cs

/-- Substring check on strings: does the haystack contain the needle. -/
def strContainsSub (haystack needle : String) : Bool :=
  containsSeq needle.data haystack.data

/-- One rendered context line, as the source builds it. -/
def lineFor (p : Payload) : String := "- " ++ payloadText p ++ "\\n"

/-- The characters of a block body: the rendered lines, concatenated. -/
def linesData : List Payload → List Char
  | [] => []
  | p :: ps => (lineFor p).data ++ linesData ps

/-- Status lifecycle shared by scheduled posts (PostStatus) and scheduled
emails (EmailStatus; bounced is email-only). -/
inductive JobStatus where
  | scheduled
  | processing
  | published
  | sent
  | failed
  | cancelled
  | bounced
deriving DecidableEq, Repr

/-- The fields of a ScheduledPost document the dispatcher touches;
timestamps are abstract ticks. -/
structure ScheduledPost where
  scheduleId : String
  userId : String
  status : JobStatus
  attempts : Nat
  lastAttemptAt : Option Nat
  errorMessage : Option String
  publishedAt : Option Nat
  platformPostId : Option String
  updatedAt : Nat
deriving DecidableEq, Repr

/-- The fields of a ScheduledEmail document the dispatcher touches. -/
structure ScheduledEmail where
  scheduleId : String
  userId : String
  subject : String
  status : JobStatus
  attempts : Nat
  lastAttemptAt : Option Nat
  errorMessage : Option String
  sentAt : Option Nat
  emailServiceId : Option String
  updatedAt : Nat
deriving DecidableEq, Repr

/-- Notification type: NotificationType.SUCCESS or ERROR. -/
inductive NotifType where
  | success
  | error
deriving DecidableEq, Repr

/-- A notification record as created by the dispatcher. -/
structure Notification where
  userId : String
  title : String
  ntype : NotifType
  category : String
  relatedEntityType : String
  relatedEntityId : String
deriving DecidableEq, Repr

/-- Observable events of one dispatcher run, in program order: a persisted
document state, the external delivery call, an inserted notification. -/
inductive JobEvent (J : Type) where
  | save (j : J)
  | deliver
  | notify (n : Notification)
deriving DecidableEq, Repr

/-- _publish_social_post_async (background_jobs.py lines 57-131): do
nothing when the post is missing or not scheduled; otherwise persist
processing with attempts+1 and lastAttemptAt BEFORE the delivery call,
then on success persist published with platformPostId and insert a
success notification, and on failure persist failed with a fixed error
message and insert an error notification. The source hardcodes the
delivery outcome `success = True` as a placeholder for the platform API
result; the outcome is the `delivered` parameter here so both branches of
the source are covered. `t1`/`t2` are the two datetime.now() readings. -/
def publish_social_post_async (found : Option ScheduledPost)
    (delivered : Bool) (t1 t2 : Nat) : List (JobEvent ScheduledPost) :=
  match found with
  | none => []
  | some post =>
    if post.status ≠ JobStatus.scheduled then []
    else
      let p1 : ScheduledPost :=
        { post with status := JobStatus.processing,
                    attempts := post.attempts + 1,
                    lastAttemptAt := some t1 }
      JobEvent.save p1 :: JobEvent.deliver ::
        (if delivered then
          [JobEvent.notify (Notification.mk post.userId
              "Post Published Successfully" NotifType.success "scheduling"
              "scheduled_post" post.scheduleId),
           JobEvent.save { p1 with status := JobStatus.published,
                                   publishedAt := some t2,
                                   platformPostId := some "mock-post-id-123",
                                   updatedAt := t2 }]
        else
          [JobEvent.notify (Notification.mk post.userId
              "Post Publishing Failed" NotifType.error "scheduling"
              "scheduled_post" post.scheduleId),
           JobEvent.save { p1 with status := JobStatus.failed,
                                   errorMessage :=
                                     some "Failed to publish to social media platform",
                                   updatedAt := t2 }])

/-- _send_scheduled_email_async (background_jobs.py lines 140-214): same
shape as the post dispatcher with statuses sent/failed and the email
service id. -/
def send_scheduled_email_async (found : Option ScheduledEmail)
    (delivered : Bool) (t1 t2 : Nat) : List (JobEvent ScheduledEmail) :=
  match found with
  | none => []
  | some email =>
    if email.status ≠ JobStatus.scheduled then []
    else
      let e1 : ScheduledEmail :=
        { email with status := JobStatus.processing,
                     attempts := email.attempts + 1,
                     lastAttemptAt := some t1 }
      JobEvent.save e1 :: JobEvent.deliver ::
        (if delivered then
          [JobEvent.notify (Notification.mk email.userId
              "Email Sent Successfully" NotifType.success "scheduling"
              "scheduled_email" email.scheduleId),
           JobEvent.save { e1 with status := JobStatus.sent,
                                   sentAt := some t2,
                                   emailServiceId := some "mock-email-id-456",
                                   updatedAt := t2 }]
        else
          [JobEvent.notify (Notification.mk email.userId
              "Email Sending Failed" NotifType.error "scheduling"
              "scheduled_email" email.scheduleId),
           JobEvent.save { e1 with status := JobStatus.failed,
                                   errorMessage := some "Failed to send email",
                                   updatedAt := t2 }])

/-- The processing state persisted before the delivery call. -/
def postProcessing (post : ScheduledPost) (t1 : Nat) : ScheduledPost :=
  { post with status := JobStatus.processing, attempts := post.attempts + 1,
              lastAttemptAt := some t1 }

/-- The terminal success state of a post job. -/
def postPublished (post : ScheduledPost) (t1 t2 : Nat) : ScheduledPost :=
  { postProcessing post t1 with status := JobStatus.published,
                                publishedAt := some t2,
                                platformPostId := some "mock-post-id-123",
                                updatedAt := t2 }

/-- The terminal failure state of a post job. -/
def postFailed (post : ScheduledPost) (t1 t2 : Nat) : ScheduledPost :=
  { postProcessing post t1 with status := JobStatus.failed,
                                errorMessage :=
                                  some "Failed to publish to social media platform",
                                updatedAt := t2 }

/-- The processing state persisted before the email delivery call. -/
def emailProcessing (email : ScheduledEmail) (t1 : Nat) : ScheduledEmail :=
  { email with status := JobStatus.processing, attempts := email.attempts + 1,
               lastAttemptAt := some t1 }

/-- The terminal success state of an email job. -/
def emailSent (email : ScheduledEmail) (t1 t2 : Nat) : ScheduledEmail :=
  { emailProcessing email t1 with status := JobStatus.sent,
                                  sentAt := some t2,
                                  emailServiceId := some "mock-email-id-456",
                                  updatedAt := t2 }

/-- The terminal failure state of an email job. -/
def emailFailed (email : ScheduledEmail) (t1 t2 : Nat) : ScheduledEmail :=
  { emailProcessing email t1 with status := JobStatus.failed,
                                  errorMessage := some "Failed to send email",
                                  updatedAt := t2 }

/-- Concrete scheduled post and email used to witness the lifecycle
theorem. -/
def cPost : ScheduledPost :=
  ScheduledPost.mk "s1" "u1" JobStatus.scheduled 0 none none none none 0

def cEmail : ScheduledEmail :=
  ScheduledEmail.mk "s2" "u1" "hello" JobStatus.scheduled 0 none none none none 0

/-- Mongo find_one on scheduled_posts by scheduleId and userId (the
ownership check of the cancel route). -/
def find_one_post (db : List ScheduledPost) (schedule_id user_id : String) :
    Option ScheduledPost :=
  db.find? (fun p => p.scheduleId == schedule_id && p.userId == user_id)

/-- Mongo find_one on scheduled_emails by scheduleId and userId. -/
def find_one_email (db : List ScheduledEmail) (schedule_id user_id : String) :
    Option ScheduledEmail :=
  db.find? (fun e => e.scheduleId == schedule_id && e.userId == user_id)

/-- cancel_scheduled_post (schedule.py lines 342-379): 404 when the post is
missing or not owned; otherwise set status cancelled and save — with no
check of the current status. Returns the HTTP status and the saved
records. -/
def cancel_scheduled_post (db : List ScheduledPost)
    (schedule_id user_id : String) (t : Nat) : Nat × List ScheduledPost :=
  match find_one_post db schedule_id user_id with
  | none => (404, [])
  | some post =>
    (200, [{ post with status := JobStatus.cancelled, updatedAt := t }])

/-- cancel_scheduled_email (schedule.py lines 382-419): same shape for
emails, with no check of the current status. -/
def cancel_scheduled_email (db : List ScheduledEmail)
    (schedule_id user_id : String) (t : Nat) : Nat × List ScheduledEmail :=
  match find_one_email db schedule_id user_id with
  | none => (404, [])
  | some email =>
    (200, [{ email with status := JobStatus.cancelled, updatedAt := t }])

/-- A post that has already been published, owned by u1. -/
def publishedPost : ScheduledPost :=
  ScheduledPost.mk "s1" "u1" JobStatus.published 1 (some 3) none (some 4)
    (some "mock-post-id-123") 4

/-- JSON values appearing in the error-handler response bodies. -/
inductive JVal where
  | str (s : String)
  | jbool (b : Bool)
  | null
deriving DecidableEq, Repr

/-- Lookup of a key in a JSON object body. -/
def bodyGet (body : List (String × JVal)) (k : String) : Option JVal :=
  match body.find? (fun kv => kv.fst == k) with
  | some kv => some kv.snd
  | none => none

/-- An HTTP response: status code and JSON object body. -/
structure HttpResp where
  statusCode : Nat
  body : List (String × JVal)
deriving DecidableEq, Repr

/-- get_current_user (ai_chat.py lines 37-46 and schedule.py lines 56-65):
a falsy authorization value raises HTTPException 401 before anything else;
otherwise the external verification decides (None means 401 invalid
token). The raised exception is the Except error. -/
def get_current_user (authorization : Option String)
    (verified : Option Payload) : Except (Nat × String) Payload :=
  match authorization with
  | none => Except.error (401, "Authorization header required")
  | some a =>
    if a = "" then Except.error (401, "Authorization header required")
    else
      match verified with
      | none => Except.error (401, "Invalid or expired token")
      | some u => Except.ok u

/-- http_exception_handler (error_handler.py lines 11-20): a raised
HTTPException becomes a JSONResponse with the exception status code and
the body made of exactly the keys success and message. -/
def http_exception_handler (status_code : Nat) (detail : String) : HttpResp :=
  HttpResp.mk status_code
    [("success", JVal.jbool false), ("message", JVal.str detail)]

/-- A protected route: the auth dependency runs first; only when it
succeeds does the business logic run on the authenticated user. -/
def runProtected (authorization : Option String) (verified : Option Payload)
    (business : Payload → HttpResp) : HttpResp :=
  match get_current_user authorization verified with
  | Except.error (code, detail) => http_exception_handler code detail
  | Except.ok u => business u

/-- Membership is preserved by insertStable. -/
theorem mem_insertStable (keep : α → α → Bool) (a x : α) (l : List α) :
    x ∈ insertStable keep a l ↔ x = a ∨ x ∈ l := by
  induction l with
  | nil => simp [insertStable]
  | cons b bs ih =>
    by_cases h : keep a b = true
    · simp [insertStable, h, List.mem_cons]
      try tauto
    · simp [insertStable, h, List.mem_cons, ih]
      try tauto

/-- Membership is preserved by stableSortBy. -/
theorem mem_stableSortBy (keep : α → α → Bool) (x : α) (l : List α) :
    x ∈ stableSortBy keep l ↔ x ∈ l := by
  induction l with
  | nil => simp [stableSortBy]
  | cons a as ih =>
    simp [stableSortBy, mem_insertStable, ih, List.mem_cons]

/-- Every hit kept by the server-side search satisfies every filter
condition. -/
theorem clientSearch_filterHolds (sim : Vec → Vec → Int) (coll : List QPoint)
    (q : Vec) (conds : List (String × String)) (lim : Nat) (threshold : Int)
    (r : SearchHit) (hr : r ∈ clientSearch sim coll q conds lim threshold) :
    filterHolds r.payload conds = true := by
  unfold clientSearch at hr
  have hr2 := List.mem_of_mem_take hr
  rw [mem_stableSortBy] at hr2
  have hr3 := List.mem_of_mem_filter hr2
  rw [List.mem_map] at hr3
  obtain ⟨pt, hpt, hmap⟩ := hr3
  have hflt := List.of_mem_filter hpt
  rw [← hmap]
  exact hflt

/-- C1. Owner isolation of similarity search: whatever the collection
contents, query vector, scoring function, limit, threshold and optional
filters, every hit returned by search_similar carries a payload whose
userId field equals the user_id given in the query, because the userId
condition is always part of the conjunctive must filter. -/
theorem c1_search_owner_isolation (sim : Vec → Vec → Int)
    (coll : List QPoint) (q : Option Vec) (user_id : String) (lim : Nat)
    (threshold : Int) (conversation_id source_type : Option String)
    (res : List SearchHit) (r : SearchHit)
    (hok : search_similar sim coll q user_id lim threshold conversation_id
      source_type = Except.ok res)
    (hr : r ∈ res) :
    pget r.payload "userId" = some (PValue.str user_id) := by
  match q with
  | none => simp [search_similar] at hok
  | some v =>
    simp only [search_similar, Except.ok.injEq] at hok
    subst hok
    have h := clientSearch_filterHolds _ _ _ _ _ _ _ hr
    simp only [filterHolds, List.all_eq_true] at h
    have h1 : condHolds r.payload ("userId", user_id) = true := by
      apply h
      simp
    simpa [condHolds] using h1

/-- Witness for C1: a concrete search over a two-owner collection returns a
hit and that hit carries owner A's userId. -/
theorem c1_search_owner_isolation_witness :
    pget (SearchHit.mk "pA" 9 ownerAPoint.payload).payload "userId"
      = some (PValue.str "ownerA") :=
  c1_search_owner_isolation constSim isolationColl (some [1, 2]) "ownerA" 10 0
    none none [SearchHit.mk "pA" 9 ownerAPoint.payload]
    (SearchHit.mk "pA" 9 ownerAPoint.payload) (by rfl) (by decide)

/-- Lookup distributes over dict union: a key absent from the overriding
dict falls through to the base. -/
theorem pget_append_of_none (a b : Payload) (k : String)
    (h : pget a k = none) : pget (a ++ b) k = pget b k := by
  induction a with
  | nil => simp [pget]
  | cons kv as ih =>
    by_cases hk : kv.fst == k
    · simp [pget, List.find?, hk] at h
    · simp [pget, List.find?, hk] at h ih ⊢
      exact ih h

/-- Lookup distributes over dict union: a key present in the overriding
dict keeps its value. -/
theorem pget_append_of_some (a b : Payload) (k : String) (v : PValue)
    (h : pget a k = some v) : pget (a ++ b) k = some v := by
  induction a with
  | nil => simp [pget] at h
  | cons kv as ih =>
    by_cases hk : kv.fst == k
    · simp [pget, List.find?, hk] at h ⊢
      exact h
    · simp [pget, List.find?, hk] at h ih ⊢
      exact ih h

/-- C2. Caller metadata overrides reserved payload fields: store_embedding
merges the metadata after the reserved fields, so a metadata entry keyed
"userId" replaces the authenticated user id in the stored payload; and the
chat route forwards request metadata into the stored user-message point, so
the first point stored for a chat request carries the spoofed userId
instead of the authenticated caller's id. -/
theorem c2_metadata_overrides_reserved_fields :
    (match store_embedding "caller-1" "hello" (some [1]) (some "c-1")
        "user_message" [("userId", PValue.str "attacker")] "pid-1" "t1" with
      | Except.ok p => pget p.payload "userId"
      | Except.error _ => none) = some (PValue.str "attacker") ∧
    ((chat_text mockEnv (ChatRequest.mk "hello" (some "c-1")
        [("userId", PValue.str "attacker")] true)).2.head?.map
      (fun p => pget p.payload "userId")) = some (some (PValue.str "attacker")) ∧
    mockEnv.user_id = "caller-1" ∧
    PValue.str "attacker" ≠ PValue.str "caller-1" := by
  decide

/-- Counterexample to C3: a whitespace-only message (so get_embedding
returns None) on a request with saveToMemory true — the None vector flows
into search_similar, the raised error lands in the except block, and the
handler answers with a 500 error envelope, not a normal chat response. -/
theorem c3_counterexample :
    (chat_text mockEnv (ChatRequest.mk " " none [] true)).1.statusCode = 500 ∧
    (chat_text mockEnv (ChatRequest.mk " " none [] true)).1.data = none := by
  decide

/-- C3 as amended: when saveToMemory is false, an embedding failure leaves
the similarity context empty, the completion provider is still called, and
the request returns a normal 200 chat response with nothing stored. -/
theorem c3_embedding_failure_degrades (env : ChatEnv) (req : ChatRequest)
    (hu : env.user_id ≠ "") (hs : env.subscriptionOk = true)
    (hm : req.saveToMemory = false)
    (he : get_embedding env.provider req.message = none) :
    chat_text env req =
      (ApiOut.mk 200 "Chat completed successfully"
        (some (ChatData.mk
          (resolveConversationId req.conversationId env.freshConvId)
          req.message
          (chat_completion env.has_client env.completion req.message
            (assembleContext []
              (get_conversation_context env.collection env.user_id
                (resolveConversationId req.conversationId env.freshConvId) 10))).text
          (chat_completion env.has_client env.completion req.message
            (assembleContext []
              (get_conversation_context env.collection env.user_id
                (resolveConversationId req.conversationId env.freshConvId) 10))).token_usage
          false)), []) := by
  simp [chat_text, hu, hs, hm]

/-- Witness for C3 as amended: a concrete request with a failing embedding
provider and saveToMemory false completes with the 200 envelope. -/
theorem c3_embedding_failure_degrades_witness :
    chat_text
      (ChatEnv.mk "caller-1" true (fun _ _ => 0) 0 [] (fun _ => none) false
        (Except.error "unused") "conv-f" "pid-1" "pid-2" "t1" "t2")
      (ChatRequest.mk "hi" none [] false) =
      (ApiOut.mk 200 "Chat completed successfully"
        (some (ChatData.mk "conv-f" "hi"
          "Echo: hi (AI service not configured - set OPENAI_API_KEY)"
          (TokenUsage.mk 1 10 11) false)), []) := by
  have h := c3_embedding_failure_degrades
    (ChatEnv.mk "caller-1" true (fun _ _ => 0) 0 [] (fun _ => none) false
      (Except.error "unused") "conv-f" "pid-1" "pid-2" "t1" "t2")
    (ChatRequest.mk "hi" none [] false)
    (by decide) (by rfl) (by rfl) (by decide)
  rw [h]
  decide

/-- Counterexample to C4: on a provider error the fallback token usage is
prompt 0, completion 15, total 15 — not the all-zero accounting the claim
states. -/
theorem c4_counterexample :
    (chat_completion true (Except.error "boom") "hi" "").token_usage
        ≠ TokenUsage.mk 0 0 0 ∧
    (chat_completion true (Except.error "boom") "hi" "").token_usage.completion_tokens
        = 15 ∧
    (chat_completion true (Except.error "boom") "hi" "").token_usage.total_tokens
        = 15 := by
  decide

/-- C4 as amended: whenever the configured completion provider raises,
chat_completion returns (never propagates) the fixed apology message with
the fixed low-cost accounting prompt 0, completion 15, total 15 and model
"error"; no exception escapes this step. -/
theorem c4_completion_failure_apology (e message context : String) :
    chat_completion true (Except.error e) message context =
      CompletionResult.mk
        "I'm sorry, I'm experiencing technical difficulties. Please try again later."
        (TokenUsage.mk 0 15 15) "error" := by
  rfl

/-- Counterexample to C5: with saveToMemory true and a responsive provider
the request completes with 200 and writes two points, but caller metadata
keyed "conversationId" overrides the resolved conversation id in the stored
user-message point, so that point is not tagged with the conversationId
resolved for the request. -/
theorem c5_counterexample :
    (ChatRequest.mk "hello" (some "conv-real")
      [("conversationId", PValue.str "spoofed")] true).saveToMemory = true ∧
    (chat_text mockEnv (ChatRequest.mk "hello" (some "conv-real")
      [("conversationId", PValue.str "spoofed")] true)).1.statusCode = 200 ∧
    ((chat_text mockEnv (ChatRequest.mk "hello" (some "conv-real")
        [("conversationId", PValue.str "spoofed")] true)).2.head?.map
      (fun p => pget p.payload "conversationId"))
      = some (some (PValue.str "spoofed")) ∧
    resolveConversationId (some "conv-real") mockEnv.freshConvId = "conv-real" ∧
    PValue.str "spoofed" ≠ PValue.str "conv-real" := by
  decide

/-- C5 as amended: for every chat request with saveToMemory true whose
metadata contains none of the reserved keys userId, conversationId, role
and text, if the request completes successfully (statusCode 200) then
exactly two points are stored — first the user turn, then the assistant
turn — each tagged with the authenticated caller's userId and with the
conversationId resolved for the request. -/
theorem c5_two_points_tagged (env : ChatEnv) (req : ChatRequest)
    (hsv : req.saveToMemory = true)
    (h1 : pget req.metadata "userId" = none)
    (h2 : pget req.metadata "conversationId" = none)
    (h3 : pget req.metadata "role" = none)
    (h4 : pget req.metadata "text" = none)
    (h200 : (chat_text env req).1.statusCode = 200) :
    ∃ d p1 p2,
      (chat_text env req).1.data = some d ∧
      (chat_text env req).2 = [p1, p2] ∧
      d.conversationId = resolveConversationId req.conversationId env.freshConvId ∧
      d.memoryStored = true ∧
      pget p1.payload "role" = some (PValue.str "user") ∧
      pget p1.payload "text" = some (PValue.str req.message) ∧
      pget p1.payload "userId" = some (PValue.str env.user_id) ∧
      pget p1.payload "conversationId" = some (PValue.str d.conversationId) ∧
      pget p2.payload "role" = some (PValue.str "assistant") ∧
      pget p2.payload "text" = some (PValue.str d.responseText) ∧
      pget p2.payload "userId" = some (PValue.str env.user_id) ∧
      pget p2.payload "conversationId" = some (PValue.str d.conversationId) := by
  by_cases hu : env.user_id = ""
  · simp [chat_text, hu] at h200
  by_cases hs : env.subscriptionOk = true
  case neg =>
    simp only [Bool.not_eq_true] at hs
    simp [chat_text, hu, hs] at h200
  cases he : get_embedding env.provider req.message with
  | none => simp [chat_text, hu, hs, hsv, he, search_similar] at h200
  | some v =>
    rcases hrun : chat_text env req with ⟨out, stored⟩
    rw [hrun] at h200
    simp only [chat_text, hu, hs, hsv, he, search_similar, store_embedding,
      if_neg hu, if_true, Bool.not_true, Bool.false_eq_true, if_false] at hrun
    split at hrun
    · injection hrun with hA hB
      subst hA
      simp at h200
    · rename_i xv p2v heqv
      split at heqv
      · simp at heqv
      · injection heqv with hp2
        subst hp2
        injection hrun with hA hB
        subst hA hB
        refine ⟨_, _, _, rfl, rfl, rfl, rfl, ?_, ?_, ?_, ?_, rfl, rfl, rfl, rfl⟩
        · have hmr : pget (req.metadata ++ [("role", PValue.str "user")]) "role"
              = some (PValue.str "user") := by
            rw [pget_append_of_none _ _ _ h3]
            rfl
          exact pget_append_of_some _ _ _ _ hmr
        · have hmr : pget (req.metadata ++ [("role", PValue.str "user")]) "text"
              = none := by
            rw [pget_append_of_none _ _ _ h4]
            rfl
          rw [pget_append_of_none _ _ _ hmr]
          rfl
        · have hmr : pget (req.metadata ++ [("role", PValue.str "user")]) "userId"
              = none := by
            rw [pget_append_of_none _ _ _ h1]
            rfl
          rw [pget_append_of_none _ _ _ hmr]
          rfl
        · have hmr : pget (req.metadata ++ [("role", PValue.str "user")]) "conversationId"
              = none := by
            rw [pget_append_of_none _ _ _ h2]
            rfl
          rw [pget_append_of_none _ _ _ hmr]
          rfl

/-- Witness for C5 as amended: a concrete successful request with clean
metadata stores exactly the two tagged points. -/
theorem c5_two_points_tagged_witness :
    ∃ d p1 p2,
      (chat_text mockEnv (ChatRequest.mk "hello" (some "c-1") [] true)).1.data = some d ∧
      (chat_text mockEnv (ChatRequest.mk "hello" (some "c-1") [] true)).2 = [p1, p2] ∧
      d.conversationId = resolveConversationId (some "c-1") mockEnv.freshConvId ∧
      d.memoryStored = true ∧
      pget p1.payload "role" = some (PValue.str "user") ∧
      pget p1.payload "text" = some (PValue.str "hello") ∧
      pget p1.payload "userId" = some (PValue.str mockEnv.user_id) ∧
      pget p1.payload "conversationId" = some (PValue.str d.conversationId) ∧
      pget p2.payload "role" = some (PValue.str "assistant") ∧
      pget p2.payload "text" = some (PValue.str d.responseText) ∧
      pget p2.payload "userId" = some (PValue.str mockEnv.user_id) ∧
      pget p2.payload "conversationId" = some (PValue.str d.conversationId) :=
  c5_two_points_tagged mockEnv (ChatRequest.mk "hello" (some "c-1") [] true)
    rfl rfl rfl rfl rfl (by decide)

/-- C6 evaluated on the failing input: with six turns m1..m6 in increasing
createdAt order, get_conversation_context sorts newest-first, and the
route's `conversation_context[-5:]` slice then selects the five OLDEST
turns in reverse-chronological order — the assembled block lists m5, m4,
m3, m2, m1, dropping the newest turn m6 and reversing the order the claim
(and the source comment "Last 5 messages") require. -/
theorem c6_recent_block_lists_oldest_five_reversed :
    ((lastN 5 (get_conversation_context sixTurnColl "u1" "c1" 10)).map
        (fun p => pget p.payload "text"))
      = [some (PValue.str "m5"), some (PValue.str "m4"), some (PValue.str "m3"),
         some (PValue.str "m2"), some (PValue.str "m1")] ∧
    assembleContext [] (get_conversation_context sixTurnColl "u1" "c1" 10)
      = "\\n\\nRecent conversation:\\n- m5\\n- m4\\n- m3\\n- m2\\n- m1\\n" ∧
    ((lastN 5 (get_conversation_context sixTurnColl "u1" "c1" 10)).map
        (fun p => pget p.payload "text"))
      ≠ [some (PValue.str "m2"), some (PValue.str "m3"), some (PValue.str "m4"),
         some (PValue.str "m5"), some (PValue.str "m6")] := by
  decide

/-- A needle avoiding a separator character cannot reach across it at the
front of a list. -/
theorem leadsWith_append_sep (needle : List Char) (sep : Char)
    (h : sep ∉ needle) (as bs : List Char) :
    leadsWith needle (as ++ sep :: bs) = leadsWith needle as := by
  induction needle generalizing as with
  | nil => simp [leadsWith]
  | cons n ns ih =>
    have hn : n ≠ sep := fun he => h (he ▸ List.mem_cons_self n ns)
    cases as with
    | nil =>
      have : (n == sep) = false := by simp [hn]
      simp [leadsWith, this]
    | cons a at2 =>
      have hns : sep ∉ ns := fun hm => h (List.mem_cons_of_mem n hm)
      simp [leadsWith, ih hns]

/-- Occurrences of a separator-free needle in a list split at that
separator: they lie wholly left or wholly right of it. -/
theorem containsSeq_append_sep (needle : List Char) (sep : Char)
    (h : sep ∉ needle) (hne : needle ≠ []) (xs ys : List Char) :
    containsSeq needle (xs ++ sep :: ys)
      = (containsSeq needle xs || containsSeq needle ys) := by
  induction xs with
  | nil =>
    cases needle with
    | nil => exact absurd rfl hne
    | cons n ns =>
      have hn : n ≠ sep := fun he => h (he ▸ List.mem_cons_self n ns)
      have hb : (n == sep) = false := by simp [hn]
      simp [containsSeq, leadsWith, hb]
  | cons x xt ih =>
    have hstep := leadsWith_append_sep needle sep h (x :: xt) ys
    have hL : containsSeq needle ((x :: xt) ++ sep :: ys)
        = (leadsWith needle ((x :: xt) ++ sep :: ys)
            || containsSeq needle (xt ++ sep :: ys)) := rfl
    have hR : containsSeq needle (x :: xt)
        = (leadsWith needle (x :: xt) || containsSeq needle xt) := rfl
    rw [hL, hstep, ih, hR, Bool.or_assoc]

/-- The needle occurs at the front of itself plus anything. -/
theorem leadsWith_self_append (n t : List Char) :
    leadsWith n (n ++ t) = true := by
  induction n with
  | nil => simp [leadsWith]
  | cons c cs ih => simp [leadsWith, ih]

/-- Containment is preserved under prepending. -/
theorem containsSeq_append_right (needle xs ys : List Char)
    (h : containsSeq needle ys = true) :
    containsSeq needle (xs ++ ys) = true := by
  induction xs with
  | nil => simpa using h
  | cons x xt ih => simp [containsSeq, ih]

/-- A list containing the needle as a prefix contains it. -/
theorem containsSeq_self_append (n t : List Char) :
    containsSeq n (n ++ t) = true := by
  cases n with
  | nil => cases t <;> simp [containsSeq, leadsWith]
  | cons c cs =>
    have h : leadsWith (c :: cs) ((c :: cs) ++ t) = true :=
      leadsWith_self_append _ _
    have hu : containsSeq (c :: cs) ((c :: cs) ++ t)
        = (leadsWith (c :: cs) ((c :: cs) ++ t)
            || containsSeq (c :: cs) (cs ++ t)) := rfl
    rw [hu, h, Bool.true_or]

/-- The similarity-hit loop of the assembler accumulates exactly the
rendered lines after the initial string. -/
theorem hitsFold_data (l : List SearchHit) (init : String) :
    (l.foldl (fun acc m => acc ++ "- " ++ payloadText m.payload ++ "\\n") init).data
      = init.data ++ linesData (l.map (fun m => m.payload)) := by
  induction l generalizing init with
  | nil => simp [linesData]
  | cons p pt ih =>
    simp [List.foldl, ih, linesData, lineFor, String.data_append,
      List.append_assoc]

/-- The recent-turn loop of the assembler accumulates exactly the rendered
lines after the initial string. -/
theorem scrollFold_data (l : List ScrollPoint) (init : String) :
    (l.foldl (fun acc m => acc ++ "- " ++ payloadText m.payload ++ "\\n") init).data
      = init.data ++ linesData (l.map (fun m => m.payload)) := by
  induction l generalizing init with
  | nil => simp [linesData]
  | cons p pt ih =>
    simp [List.foldl, ih, linesData, lineFor, String.data_append,
      List.append_assoc]

/-- Characters of the hits-only assembled context: the relevant-context
label followed by the rendered hit lines. -/
theorem assembleContext_hits_data (hits : List SearchHit) (hne : hits ≠ []) :
    (assembleContext hits []).data
      = ("\\n\\nRelevant context from memory:\\n").data
          ++ linesData (hits.map (fun m => m.payload)) := by
  have hie : hits.isEmpty = false := by
    cases hits with
    | nil => exact absurd rfl hne
    | cons a as => rfl
  simp only [assembleContext, hie, Bool.false_eq_true, if_false,
    List.isEmpty_nil, if_true]
  rw [hitsFold_data]
  simp [String.data_append]

/-- Characters of the recent-only assembled context: the recent-conversation
label followed by the rendered lines of the last five turns. -/
theorem assembleContext_recent_data (recent : List ScrollPoint)
    (hne : recent ≠ []) :
    (assembleContext [] recent).data
      = ("\\n\\nRecent conversation:\\n").data
          ++ linesData ((lastN 5 recent).map (fun m => m.payload)) := by
  have hie : recent.isEmpty = false := by
    cases recent with
    | nil => exact absurd rfl hne
    | cons a as => rfl
  simp only [assembleContext, hie, Bool.false_eq_true, if_false,
    List.isEmpty_nil, if_true]
  rw [scrollFold_data]
  simp [String.data_append]

/-- Scanning past a character the needle does not start with changes
nothing. -/
theorem containsSeq_cons_ne (n0 : Char) (nrest : List Char) (c : Char)
    (X : List Char) (hc : (n0 == c) = false) :
    containsSeq (n0 :: nrest) (c :: X) = containsSeq (n0 :: nrest) X := by
  have h1 : containsSeq (n0 :: nrest) (c :: X)
      = (leadsWith (n0 :: nrest) (c :: X) || containsSeq (n0 :: nrest) X) := rfl
  have h2 : leadsWith (n0 :: nrest) (c :: X)
      = ((n0 == c) && leadsWith nrest X) := rfl
  rw [h1, h2, hc, Bool.false_and, Bool.false_or]

/-- A needle that starts with a letter other than the dash, the space, the
n and the backslash of the rendered line syntax, and that occurs in no
line text, does not occur in the concatenated rendered lines. -/
theorem containsSeq_linesData (n0 : Char) (nrest : List Char)
    (ps : List Payload) (hsep : '\\' ∉ (n0 :: nrest))
    (h0 : (n0 == '-') = false) (h1 : (n0 == ' ') = false)
    (h2 : (n0 == 'n') = false)
    (htxt : ∀ p ∈ ps, containsSeq (n0 :: nrest) (payloadText p).data = false) :
    containsSeq (n0 :: nrest) (linesData ps) = false := by
  induction ps with
  | nil => rfl
  | cons p pt ih =>
    have hd1 : ("- ").data = ['-', ' '] := rfl
    have hd2 : ("\\n").data = ['\\', 'n'] := rfl
    have hshape : linesData (p :: pt)
        = '-' :: ' ' :: ((payloadText p).data
            ++ '\\' :: ('n' :: linesData pt)) := by
      show (lineFor p).data ++ linesData pt = _
      rw [lineFor, String.data_append, String.data_append, hd1, hd2]
      simp [List.append_assoc]
    rw [hshape, containsSeq_cons_ne _ _ _ _ h0, containsSeq_cons_ne _ _ _ _ h1,
      containsSeq_append_sep _ '\\' hsep (by simp) _ _,
      htxt p (List.mem_cons_self p pt), Bool.false_or,
      containsSeq_cons_ne _ _ _ _ h2]
    exact ih (fun q hq => htxt q (List.mem_cons_of_mem p hq))

/-- C7. Behaviour of the context assembly (ai_chat.py lines 107-117): with
no similarity hits and no recent turns the context is the empty string;
with hits only, the result contains the relevant-context label and — as
long as no hit text smuggles the other label in — not the
recent-conversation label; with recent turns only, symmetrically. -/
theorem c7_assemble_labels :
    assembleContext [] [] = "" ∧
    (∀ hits : List SearchHit, hits ≠ [] →
      strContainsSub (assembleContext hits []) "Relevant context from memory:"
        = true) ∧
    (∀ hits : List SearchHit,
      (∀ m ∈ hits,
        strContainsSub (payloadText m.payload) "Recent conversation:" = false) →
      strContainsSub (assembleContext hits []) "Recent conversation:" = false) ∧
    (∀ recent : List ScrollPoint, recent ≠ [] →
      strContainsSub (assembleContext [] recent) "Recent conversation:"
        = true) ∧
    (∀ recent : List ScrollPoint,
      (∀ m ∈ recent,
        strContainsSub (payloadText m.payload) "Relevant context from memory:"
          = false) →
      strContainsSub (assembleContext [] recent) "Relevant context from memory:"
        = false) := by
  refine ⟨rfl, ?_, ?_, ?_, ?_⟩
  · intro hits hne
    show containsSeq ("Relevant context from memory:").data
      (assembleContext hits []).data = true
    rw [assembleContext_hits_data hits hne]
    have hdec : ("\\n\\nRelevant context from memory:\\n").data
        = ['\\', 'n', '\\', 'n']
            ++ (("Relevant context from memory:").data ++ ['\\', 'n']) := rfl
    rw [hdec, List.append_assoc, List.append_assoc]
    exact containsSeq_append_right _ _ _ (containsSeq_self_append _ _)
  · intro hits hcond
    cases hits with
    | nil => rfl
    | cons a as =>
      have hne : (a :: as : List SearchHit) ≠ [] := by simp
      show containsSeq ("Recent conversation:").data
        (assembleContext (a :: as) []).data = false
      rw [assembleContext_hits_data _ hne]
      have hlab : ("\\n\\nRelevant context from memory:\\n").data
          = ('\\' :: 'n' :: '\\' :: 'n'
              :: ("Relevant context from memory:").data) ++ ['\\', 'n'] := rfl
      have hsplit : ("\\n\\nRelevant context from memory:\\n").data
            ++ linesData ((a :: as).map (fun m => m.payload))
          = ('\\' :: 'n' :: '\\' :: 'n'
              :: ("Relevant context from memory:").data)
            ++ '\\' :: ('n' :: linesData ((a :: as).map (fun m => m.payload))) := by
        rw [hlab, List.append_assoc]
        rfl
      have hneedle : ("Recent conversation:").data
          = 'R' :: ("ecent conversation:").data := rfl
      rw [hsplit, hneedle,
        containsSeq_append_sep ('R' :: ("ecent conversation:").data) '\\'
          (by decide) (by decide) _ _]
      have hpre : containsSeq ('R' :: ("ecent conversation:").data)
          ('\\' :: 'n' :: '\\' :: 'n'
            :: ("Relevant context from memory:").data) = false := by decide
      rw [hpre, Bool.false_or, containsSeq_cons_ne _ _ _ _ (by decide)]
      refine containsSeq_linesData _ _ _ (by decide) (by decide) (by decide)
        (by decide) ?_
      intro p hp
      rw [List.mem_map] at hp
      obtain ⟨m, hm, hpm⟩ := hp
      have hc := hcond m hm
      simp only [strContainsSub] at hc
      rw [← hpm]
      exact hc
  · intro recent hne
    show containsSeq ("Recent conversation:").data
      (assembleContext [] recent).data = true
    rw [assembleContext_recent_data recent hne]
    have hdec : ("\\n\\nRecent conversation:\\n").data
        = ['\\', 'n', '\\', 'n']
            ++ (("Recent conversation:").data ++ ['\\', 'n']) := rfl
    rw [hdec, List.append_assoc, List.append_assoc]
    exact containsSeq_append_right _ _ _ (containsSeq_self_append _ _)
  · intro recent hcond
    cases recent with
    | nil => rfl
    | cons a as =>
      have hne : (a :: as : List ScrollPoint) ≠ [] := by simp
      show containsSeq ("Relevant context from memory:").data
        (assembleContext [] (a :: as)).data = false
      rw [assembleContext_recent_data _ hne]
      have hlab : ("\\n\\nRecent conversation:\\n").data
          = ('\\' :: 'n' :: '\\' :: 'n' :: ("Recent conversation:").data)
            ++ ['\\', 'n'] := rfl
      have hsplit : ("\\n\\nRecent conversation:\\n").data
            ++ linesData ((lastN 5 (a :: as)).map (fun m => m.payload))
          = ('\\' :: 'n' :: '\\' :: 'n' :: ("Recent conversation:").data)
            ++ '\\' :: ('n'
              :: linesData ((lastN 5 (a :: as)).map (fun m => m.payload))) := by
        rw [hlab, List.append_assoc]
        rfl
      have hneedle : ("Relevant context from memory:").data
          = 'R' :: ("elevant context from memory:").data := rfl
      rw [hsplit, hneedle,
        containsSeq_append_sep ('R' :: ("elevant context from memory:").data)
          '\\' (by decide) (by decide) _ _]
      have hpre : containsSeq ('R' :: ("elevant context from memory:").data)
          ('\\' :: 'n' :: '\\' :: 'n' :: ("Recent conversation:").data)
          = false := by decide
      rw [hpre, Bool.false_or, containsSeq_cons_ne _ _ _ _ (by decide)]
      refine containsSeq_linesData _ _ _ (by decide) (by decide) (by decide)
        (by decide) ?_
      intro p hp
      rw [List.mem_map] at hp
      obtain ⟨m, hm, hpm⟩ := hp
      simp only [lastN] at hm
      have hm2 : m ∈ (a :: as : List ScrollPoint) := List.drop_subset _ _ hm
      have hc := hcond m hm2
      simp only [strContainsSub] at hc
      rw [← hpm]
      exact hc

/-- Witness for C7: the labels behave as stated on concrete one-element
inputs. -/
theorem c7_assemble_labels_witness :
    strContainsSub
        (assembleContext [SearchHit.mk "h1" 1 [("text", PValue.str "pasta")]] [])
        "Relevant context from memory:" = true ∧
    strContainsSub
        (assembleContext [SearchHit.mk "h1" 1 [("text", PValue.str "pasta")]] [])
        "Recent conversation:" = false ∧
    strContainsSub
        (assembleContext [] [ScrollPoint.mk "s1" [("text", PValue.str "hi")]])
        "Recent conversation:" = true ∧
    strContainsSub
        (assembleContext [] [ScrollPoint.mk "s1" [("text", PValue.str "hi")]])
        "Relevant context from memory:" = false :=
  ⟨c7_assemble_labels.2.1 [SearchHit.mk "h1" 1 [("text", PValue.str "pasta")]]
      (by decide),
   c7_assemble_labels.2.2.1 [SearchHit.mk "h1" 1 [("text", PValue.str "pasta")]]
      (by decide),
   c7_assemble_labels.2.2.2.1 [ScrollPoint.mk "s1" [("text", PValue.str "hi")]]
      (by decide),
   c7_assemble_labels.2.2.2.2 [ScrollPoint.mk "s1" [("text", PValue.str "hi")]]
      (by decide)⟩

/-- C8. Deferred-job lifecycle: for every scheduled post and email picked
up by the dispatcher, (i) the first persisted state is processing with the
attempt counter incremented and the attempt timestamp recorded, and that
save happens before the external delivery call; (ii) no persisted state
ever has status scheduled again; (iii) on successful delivery the final
persisted state is published (post) or sent (email); (iv) on delivery
failure the final persisted state is failed with a non-empty errorMessage
and no success notification is inserted on that path. -/
theorem c8_dispatcher_lifecycle (post : ScheduledPost)
    (email : ScheduledEmail) (delivered : Bool) (t1 t2 : Nat)
    (hp : post.status = JobStatus.scheduled)
    (he : email.status = JobStatus.scheduled) :
    ((∃ p1, (publish_social_post_async (some post) delivered t1 t2).take 2
          = [JobEvent.save p1, JobEvent.deliver] ∧
        p1.status = JobStatus.processing ∧
        p1.attempts = post.attempts + 1 ∧
        p1.lastAttemptAt = some t1) ∧
      (∀ j, JobEvent.save j ∈ publish_social_post_async (some post) delivered t1 t2 →
        j.status ≠ JobStatus.scheduled) ∧
      (delivered = true →
        ∃ p2, (publish_social_post_async (some post) delivered t1 t2).getLast?
            = some (JobEvent.save p2) ∧ p2.status = JobStatus.published) ∧
      (delivered = false →
        (∃ p2, (publish_social_post_async (some post) delivered t1 t2).getLast?
            = some (JobEvent.save p2) ∧ p2.status = JobStatus.failed ∧
          ∃ msg, p2.errorMessage = some msg ∧ msg ≠ "") ∧
        (∀ n, JobEvent.notify n ∈ publish_social_post_async (some post) delivered t1 t2 →
          n.ntype ≠ NotifType.success))) ∧
    ((∃ e1, (send_scheduled_email_async (some email) delivered t1 t2).take 2
          = [JobEvent.save e1, JobEvent.deliver] ∧
        e1.status = JobStatus.processing ∧
        e1.attempts = email.attempts + 1 ∧
        e1.lastAttemptAt = some t1) ∧
      (∀ j, JobEvent.save j ∈ send_scheduled_email_async (some email) delivered t1 t2 →
        j.status ≠ JobStatus.scheduled) ∧
      (delivered = true →
        ∃ e2, (send_scheduled_email_async (some email) delivered t1 t2).getLast?
            = some (JobEvent.save e2) ∧ e2.status = JobStatus.sent) ∧
      (delivered = false →
        (∃ e2, (send_scheduled_email_async (some email) delivered t1 t2).getLast?
            = some (JobEvent.save e2) ∧ e2.status = JobStatus.failed ∧
          ∃ msg, e2.errorMessage = some msg ∧ msg ≠ "") ∧
        (∀ n, JobEvent.notify n ∈ send_scheduled_email_async (some email) delivered t1 t2 →
          n.ntype ≠ NotifType.success))) := by
  constructor
  · refine ⟨⟨postProcessing post t1,
      by cases delivered <;> simp [publish_social_post_async, hp, postProcessing],
      rfl, rfl, rfl⟩, ?_, ?_, ?_⟩
    · intro j hj
      cases delivered <;>
        simp [publish_social_post_async, hp] at hj <;>
        rcases hj with h | h <;>
        subst h <;>
        simp
    · intro hd
      subst hd
      refine ⟨postPublished post t1 t2, ?_, rfl⟩
      simp [publish_social_post_async, hp, postPublished, postProcessing, List.getLast?]
    · intro hd
      subst hd
      constructor
      · refine ⟨postFailed post t1 t2, ?_, rfl,
          "Failed to publish to social media platform", rfl, by decide⟩
        simp [publish_social_post_async, hp, postFailed, postProcessing, List.getLast?]
      · intro n hn
        simp [publish_social_post_async, hp] at hn
        subst hn
        simp
  · refine ⟨⟨emailProcessing email t1,
      by cases delivered <;> simp [send_scheduled_email_async, he, emailProcessing],
      rfl, rfl, rfl⟩, ?_, ?_, ?_⟩
    · intro j hj
      cases delivered <;>
        simp [send_scheduled_email_async, he] at hj <;>
        rcases hj with h | h <;>
        subst h <;>
        simp
    · intro hd
      subst hd
      refine ⟨emailSent email t1 t2, ?_, rfl⟩
      simp [send_scheduled_email_async, he, emailSent, emailProcessing, List.getLast?]
    · intro hd
      subst hd
      constructor
      · refine ⟨emailFailed email t1 t2, ?_, rfl, "Failed to send email",
          rfl, by decide⟩
        simp [send_scheduled_email_async, he, emailFailed, emailProcessing, List.getLast?]
      · intro n hn
        simp [send_scheduled_email_async, he] at hn
        subst hn
        simp

/-- Witness for C8: the theorem applied to a concrete failing delivery. -/
theorem c8_dispatcher_lifecycle_witness :
    ∃ p1, (publish_social_post_async (some cPost) false 5 9).take 2
        = [JobEvent.save p1, JobEvent.deliver] ∧
      p1.status = JobStatus.processing ∧
      p1.attempts = cPost.attempts + 1 ∧
      p1.lastAttemptAt = some 5 :=
  (c8_dispatcher_lifecycle cPost cEmail false 5 9 rfl rfl).1.1

/-- Counterexample to C9: the owner's DELETE of an already PUBLISHED post
succeeds with 200 and persists status cancelled — the cancel transition is
not restricted to still-scheduled jobs. -/
theorem c9_counterexample :
    publishedPost.status = JobStatus.published ∧
    (cancel_scheduled_post [publishedPost] "s1" "u1" 7).1 = 200 ∧
    ((cancel_scheduled_post [publishedPost] "s1" "u1" 7).2.map
      (fun p => p.status)) = [JobStatus.cancelled] := by
  decide

/-- C9 as amended: the cancel routes apply the cancelled status to ANY job
found by (scheduleId, ownerId), whatever its current status — scheduled,
processing, published, sent, failed or already cancelled — and answer 404
with no write only when no such job exists. -/
theorem c9_cancel_unguarded (db : List ScheduledPost)
    (dbe : List ScheduledEmail) (sid uid : String) (t : Nat) :
    (∀ post, find_one_post db sid uid = some post →
      cancel_scheduled_post db sid uid t
        = (200, [{ post with status := JobStatus.cancelled, updatedAt := t }])) ∧
    (find_one_post db sid uid = none →
      cancel_scheduled_post db sid uid t = (404, [])) ∧
    (∀ email, find_one_email dbe sid uid = some email →
      cancel_scheduled_email dbe sid uid t
        = (200, [{ email with status := JobStatus.cancelled, updatedAt := t }])) ∧
    (find_one_email dbe sid uid = none →
      cancel_scheduled_email dbe sid uid t = (404, [])) := by
  refine ⟨?_, ?_, ?_, ?_⟩
  · intro post h
    simp [cancel_scheduled_post, h]
  · intro h
    simp [cancel_scheduled_post, h]
  · intro email h
    simp [cancel_scheduled_email, h]
  · intro h
    simp [cancel_scheduled_email, h]

/-- Witness for C9 as amended: cancelling the concrete published post. -/
theorem c9_cancel_unguarded_witness :
    cancel_scheduled_post [publishedPost] "s1" "u1" 7
      = (200, [{ publishedPost with status := JobStatus.cancelled,
                                    updatedAt := 7 }]) :=
  (c9_cancel_unguarded [publishedPost] [] "s1" "u1" 7).1 publishedPost
    (by decide)

/-- C10 evaluated at the failing input: with no Authorization header the
response is exactly 401 and is produced before any business logic runs
(the same response for every business function), but its body is
`success`/`message` — the keys statusCode and data of the standard
envelope, which the claim and the repository's own test
test_schedule_post_missing_auth expect, are absent. -/
theorem c10_missing_auth_401 (verified : Option Payload)
    (business : Payload → HttpResp) :
    runProtected none verified business
        = HttpResp.mk 401
            [("success", JVal.jbool false),
             ("message", JVal.str "Authorization header required")] ∧
    (runProtected none verified business).statusCode = 401 ∧
    bodyGet (runProtected none verified business).body "statusCode" = none ∧
    bodyGet (runProtected none verified business).body "data" = none := by
  exact ⟨rfl, rfl, rfl, rfl⟩
